/-
  Verification of the Space-Golf mini-golf game core.

  Shallow embedding of the game's simulation code:
  Ball physics (ball module), course configuration and bounds testing
  (course module), input shot intake (input module), game state machine
  (game module), obstacle and drone managers (obstacles/drones modules).

  JS numbers are modelled as exact rationals (ℚ).  Comparisons of the
  form `Math.sqrt(a) < c` are embedded by the equivalent sign-aware
  square comparisons (`sqrtLtQ` / `sqrtGtQ`), so every definition stays
  executable.  `Math.random()` draws and the few irrational trig values
  used for obstacle anchor points are supplied by an explicit oracle
  (`Env`), making the nondeterminism of the source an explicit input.
  JS division, whose result at a zero divisor is the non-finite NaN or
  Infinity, is embedded as an `Option`-valued division (`none` = the
  result is not a finite number).
-/
import Mathlib

namespace SpaceGolf

/-- 3D vector over exact rationals (embeds THREE.Vector3 as used by the
game logic). -/
structure Vec3 where
  x : ℚ
  y : ℚ
  z : ℚ
deriving DecidableEq, Repr

namespace Vec3

/-- Component-wise subtraction (`Vector3.sub`). -/
def sub (a b : Vec3) : Vec3 := ⟨a.x - b.x, a.y - b.y, a.z - b.z⟩

/-- Component-wise addition (`Vector3.add`). -/
def add (a b : Vec3) : Vec3 := ⟨a.x + b.x, a.y + b.y, a.z + b.z⟩

/-- Scalar multiple (`Vector3.multiplyScalar`). -/
def smul (v : Vec3) (c : ℚ) : Vec3 := ⟨v.x * c, v.y * c, v.z * c⟩

/-- Squared Euclidean length; `Vector3.length()` is its square root. -/
def lenSq (v : Vec3) : ℚ := v.x * v.x + v.y * v.y + v.z * v.z

/-- Squared distance between two points (`Vector3.distanceTo` squared). -/
def distSq (a b : Vec3) : ℚ := lenSq (sub a b)

/-- Zero vector (`new THREE.Vector3()` / `Vector3.set(0,0,0)`). -/
def zero : Vec3 := ⟨0, 0, 0⟩

end Vec3

/-- Helper: `sqrtLtQ a c` decides `Math.sqrt a < c` for a nonnegative radicand
`a`, without leaving ℚ: the square root is `< c` iff `c` is positive and
`a < c²`. -/
def sqrtLtQ (a c : ℚ) : Bool := decide (0 < c) && decide (a < c * c)

/-- Helper: `sqrtGtQ a c` decides `Math.sqrt a > c` for a nonnegative radicand
`a`: the square root is `> c` iff `c` is negative or `c² < a`. -/
def sqrtGtQ (a c : ℚ) : Bool := decide (c < 0) || decide (c * c < a)

/-- JS division producing a finite number only for a nonzero divisor;
`none` stands for the non-finite NaN / ±Infinity that IEEE division by
zero yields. -/
def jsDiv (a b : ℚ) : Option ℚ := if b = 0 then none else some (a / b)

/-- Embeds `Vector3.divideScalar`: component-wise JS division; the result is a
finite vector only when the divisor is nonzero. -/
def vecDivOpt (v : Vec3) (b : ℚ) : Option Vec3 :=
  if b = 0 then none else some ⟨v.x / b, v.y / b, v.z / b⟩

/-! ## Ball (ball module)

Physics constants from the `Ball` constructor:
`friction = 0.98`, `gravity = -9.8`, `bounciness = 0.6`,
`minSpeed = 0.01`, `radius = 0.5`; the air-resistance factor `0.995`
appears inline in `update`. -/

/-- Ball state: `position` and `velocity` vectors plus the `isMoving`
flag.  The mesh/material fields of the source are rendering-only and
omitted; `mesh.position` is the `position` here. -/
structure Ball where
  position : Vec3
  velocity : Vec3
  isMoving : Bool
deriving DecidableEq, Repr

namespace Ball

def friction : ℚ := 98 / 100
def gravity : ℚ := -(49 / 5)
def bounciness : ℚ := 3 / 5
def minSpeed : ℚ := 1 / 100
def radius : ℚ := 1 / 2
def airDrag : ℚ := 995 / 1000

/-- Embeds `Ball.setPosition(position)`: copy the position, force
`y = radius` ("Ensure ball is on ground"), zero the velocity and clear
`isMoving`. -/
def setPosition (_b : Ball) (p : Vec3) : Ball :=
  { position := ⟨p.x, radius, p.z⟩
    velocity := Vec3.zero
    isMoving := false }

/-- Embeds `Ball.canShoot()`: the ball accepts a shot iff it is not moving. -/
def canShoot (b : Ball) : Bool := !b.isMoving

/-- Embeds `Ball.shoot(direction, power)`: sets
`velocity = (direction.x * power * 50, power * 5, direction.z * power * 50)`
and marks the ball moving.  Note: the source performs NO `canShoot`
guard here; the guard lives in the input handler. -/
def shoot (b : Ball) (direction : Vec3) (power : ℚ) : Ball :=
  let force := power * 50
  { b with
      velocity := ⟨direction.x * force, power * 5, direction.z * force⟩
      isMoving := true }

/-- Embeds `Ball.update(delta)`: early-out when resting slowly; otherwise
integrate gravity and position, clamp to the ground (`y < radius` →
`y := radius`, bounce and ground friction), apply air drag to the
horizontal components, and stop the ball when slow and grounded.  The
purely visual mesh spin at the end of the source function is omitted.
`length() < minSpeed` comparisons are embedded as squared comparisons,
which are equivalent since both sides are nonnegative. -/
def update (b : Ball) (delta : ℚ) : Ball :=
  if !b.isMoving && decide (b.velocity.lenSq < minSpeed * minSpeed) then b
  else
    let v1 : Vec3 := ⟨b.velocity.x, b.velocity.y + gravity * delta, b.velocity.z⟩
    let p1 : Vec3 := ⟨b.position.x + v1.x * delta,
                      b.position.y + v1.y * delta,
                      b.position.z + v1.z * delta⟩
    let p2 : Vec3 := if p1.y < radius then ⟨p1.x, radius, p1.z⟩ else p1
    let v2 : Vec3 :=
      if p1.y < radius then
        ⟨v1.x * friction, v1.y * (-bounciness), v1.z * friction⟩
      else v1
    let v3 : Vec3 := ⟨v2.x * airDrag, v2.y, v2.z * airDrag⟩
    if decide (v3.lenSq < minSpeed * minSpeed) && decide (p2.y ≤ radius + 1 / 100) then
      { position := p2, velocity := Vec3.zero, isMoving := false }
    else
      { position := p2, velocity := v3, isMoving := b.isMoving }

end Ball

/-! ## Course (course module, first `Course` class of the file)

Per-hole configurations, hole-number lookup with its `Math.min` clamp,
and the shape-specific bounds predicates. -/

/-- Ground shapes appearing in the hole-configuration tables
(`groundShape` string values of the source). -/
inductive GroundShape where
  | rectangle
  | lshape
  | donut
  | circular
  | scattered
  | narrow
  | split
  | asteroid
  | complex
deriving DecidableEq, Repr

/-- Shape dimensions.  Each JS config literal defines only the keys its
shape uses (`width`/`depth`, `radius`, or `outerRadius`/`innerRadius`);
absent keys are recorded as 0 here and are never read by the bounds
checker that matches the shape. -/
structure GroundSize where
  width : ℚ
  depth : ℚ
  radius : ℚ
  outerRadius : ℚ
  innerRadius : ℚ
deriving DecidableEq, Repr

/-- One per-hole configuration record (par, start point, cup point,
ground size and shape). -/
structure HoleConfig where
  par : ℤ
  start : Vec3
  hole : Vec3
  groundSize : GroundSize
  groundShape : GroundShape
deriving DecidableEq, Repr

namespace Course

/-- The nine-entry `configs` array of `Course.getHoleConfig`
(course module, first class): pars 2,3,3,3,4,4,5,5,6 with the listed
shapes, starts and cups. -/
def holeConfigs : List HoleConfig :=
  [ { par := 2, start := ⟨0, 0, 20⟩, hole := ⟨0, 0, -20⟩,
      groundSize := { width := 15, depth := 50, radius := 0, outerRadius := 0, innerRadius := 0 },
      groundShape := .rectangle },
    { par := 3, start := ⟨-15, 0, 10⟩, hole := ⟨12, 0, -12⟩,
      groundSize := { width := 40, depth := 40, radius := 0, outerRadius := 0, innerRadius := 0 },
      groundShape := .lshape },
    { par := 3, start := ⟨0, 0, 25⟩, hole := ⟨0, 0, -25⟩,
      groundSize := { width := 20, depth := 60, radius := 0, outerRadius := 0, innerRadius := 0 },
      groundShape := .rectangle },
    { par := 3, start := ⟨0, 0, 25⟩, hole := ⟨0, 0, -25⟩,
      groundSize := { width := 0, depth := 0, radius := 0, outerRadius := 30, innerRadius := 12 },
      groundShape := .donut },
    { par := 4, start := ⟨0, 0, 30⟩, hole := ⟨0, 0, -30⟩,
      groundSize := { width := 25, depth := 70, radius := 0, outerRadius := 0, innerRadius := 0 },
      groundShape := .narrow },
    { par := 4, start := ⟨0, 0, 25⟩, hole := ⟨0, 0, -25⟩,
      groundSize := { width := 0, depth := 0, radius := 0, outerRadius := 30, innerRadius := 12 },
      groundShape := .donut },
    { par := 5, start := ⟨0, 0, 35⟩, hole := ⟨0, 0, -35⟩,
      groundSize := { width := 30, depth := 80, radius := 0, outerRadius := 0, innerRadius := 0 },
      groundShape := .split },
    { par := 5, start := ⟨30, 0, 0⟩, hole := ⟨-30, 0, 0⟩,
      groundSize := { width := 0, depth := 0, radius := 35, outerRadius := 0, innerRadius := 0 },
      groundShape := .circular },
    { par := 6, start := ⟨-30, 0, 30⟩, hole := ⟨30, 0, -30⟩,
      groundSize := { width := 70, depth := 70, radius := 0, outerRadius := 0, innerRadius := 0 },
      groundShape := .complex } ]

/-- Embeds `Course.getHoleConfig(holeNumber)`:
`configs[Math.min(holeNumber - 1, configs.length - 1)]`.  The index is
clamped from above to 8 (hole 9) but NOT from below; a hole number
below 1 produces a negative index, and JS array indexing at a negative
index yields `undefined`, embedded as `none`. -/
def getHoleConfig (holeNumber : ℤ) : Option HoleConfig :=
  let i := min (holeNumber - 1) 8
  if i < 0 then none else holeConfigs.get? i.toNat

/-- Wall-thickness constant used by all bounds checkers (0.3). -/
def wallThickness : ℚ := 3 / 10

/-- Wall-height constant used by all bounds checkers (0.8). -/
def wallHeight : ℚ := 8 / 10

/-- Embeds `Course.checkRectangularBounds(pos, config)`: out of bounds
when significantly beyond the rectangular walls (safety margin 2.0) and
below the wall height, or when fallen below `y = -5`. -/
def checkRectangularBounds (pos : Vec3) (config : HoleConfig) : Bool :=
  let w := config.groundSize.width
  let d := config.groundSize.depth
  let safetyMargin : ℚ := 2
  let wayBeyondWalls :=
    decide (pos.x < -(w / 2) - wallThickness - safetyMargin) ||
    decide (pos.x > w / 2 + wallThickness + safetyMargin) ||
    decide (pos.z < -(d / 2) - wallThickness - safetyMargin) ||
    decide (pos.z > d / 2 + wallThickness + safetyMargin)
  (wayBeyondWalls && decide (pos.y ≤ wallHeight)) || decide (pos.y < -5)

/-- Embeds `Course.checkCircularBounds(pos, config)`: out of bounds when
the radial distance exceeds `radius + wallThickness + 2` and the ball is
below the wall height, or when fallen below `y = -5`. -/
def checkCircularBounds (pos : Vec3) (config : HoleConfig) : Bool :=
  let safetyMargin : ℚ := 2
  let distSq := pos.x * pos.x + pos.z * pos.z
  let wayBeyondWall := sqrtGtQ distSq (config.groundSize.radius + wallThickness + safetyMargin)
  (wayBeyondWall && decide (pos.y ≤ wallHeight)) || decide (pos.y < -5)

/-- Embeds `Course.checkLShapeBounds(pos, config)`: out of bounds when
in neither the (margin-expanded, margin 8.0) main section nor the
extension section and below wall height, or fallen below `y = -5`. -/
def checkLShapeBounds (pos : Vec3) (config : HoleConfig) : Bool :=
  let w := config.groundSize.width
  let d := config.groundSize.depth
  let safetyMargin : ℚ := 8
  let inMainSection :=
    decide (pos.x ≥ -(w / 4) - wallThickness - safetyMargin) &&
    decide (pos.x ≤ w / 4 + wallThickness + safetyMargin) &&
    decide (pos.z ≥ -(d * (3 / 10)) - wallThickness - safetyMargin) &&
    decide (pos.z ≤ d * (3 / 10) + wallThickness + safetyMargin)
  let extW := w * (6 / 10)
  let extD := d * (4 / 10)
  let extX := w * (3 / 10)
  let extZ := -(d * (3 / 10))
  let inExtSection :=
    decide (pos.x ≥ extX - extW / 2 - wallThickness - safetyMargin) &&
    decide (pos.x ≤ extX + extW / 2 + wallThickness + safetyMargin) &&
    decide (pos.z ≥ extZ - extD / 2 - wallThickness - safetyMargin) &&
    decide (pos.z ≤ extZ + extD / 2 + wallThickness + safetyMargin)
  let wayOutsideBounds := !inMainSection && !inExtSection
  (wayOutsideBounds && decide (pos.y ≤ wallHeight)) || decide (pos.y < -5)

/-- Embeds `Course.checkScatteredBounds(pos, config)`: only a ball
extremely far out (beyond ±50 on either horizontal axis) and below wall
height is out, or one fallen below `y = -5`.  (The `nearStart` and
`nearHole` flags of the source are computed but never used in its
return value; they are omitted here.) -/
def checkScatteredBounds (pos : Vec3) (_config : HoleConfig) : Bool :=
  let extremelyFarOut := decide (|pos.x| > 50) || decide (|pos.z| > 50)
  (extremelyFarOut && decide (pos.y ≤ wallHeight)) || decide (pos.y < -5)

/-- Embeds `Course.checkDonutBounds(pos, config)`: out when outside
`outerRadius + wallThickness + 3`, inside `innerRadius - wallThickness - 3`,
or fallen below `y = -3`. -/
def checkDonutBounds (pos : Vec3) (config : HoleConfig) : Bool :=
  let safetyMargin : ℚ := 3
  let distSq := pos.x * pos.x + pos.z * pos.z
  let outsideOuter := sqrtGtQ distSq (config.groundSize.outerRadius + wallThickness + safetyMargin)
  let insideInner := sqrtLtQ distSq (config.groundSize.innerRadius - wallThickness - safetyMargin)
  let belowGround := decide (pos.y < -3)
  outsideOuter || insideInner || belowGround

/-- Embeds the `switch (holeConfig.groundShape)` dispatch of
`Course.checkBounds`; `rectangle`, `narrow` and `split` share the
rectangular checker, and the `default` branch (hit by `asteroid` and
`complex`) also falls back to it. -/
def checkBoundsCfg (config : HoleConfig) (pos : Vec3) : Bool :=
  match config.groundShape with
  | .rectangle => checkRectangularBounds pos config
  | .narrow => checkRectangularBounds pos config
  | .split => checkRectangularBounds pos config
  | .circular => checkCircularBounds pos config
  | .lshape => checkLShapeBounds pos config
  | .scattered => checkScatteredBounds pos config
  | .donut => checkDonutBounds pos config
  | .asteroid => checkRectangularBounds pos config
  | .complex => checkRectangularBounds pos config

end Course

/-- Course object state: the fields of the `Course` class the game logic
reads (`startPosition`, `holePosition`, `par`, `currentHoleNumber`);
scene objects and walls are rendering state and omitted. -/
structure CourseState where
  startPosition : Vec3
  holePosition : Vec3
  par : ℤ
  currentHoleNumber : ℤ
deriving DecidableEq, Repr

namespace Course

/-- Embeds `Course.getCurrentHole()`: `this.currentHoleNumber || 1`
(a falsy stored hole number, i.e. 0, is replaced by 1). -/
def getCurrentHole (c : CourseState) : ℤ :=
  if c.currentHoleNumber = 0 then 1 else c.currentHoleNumber

/-- Embeds `Course.checkBounds(ball)`: re-fetch the configuration for
the current hole number and dispatch on its ground shape.  `none` when
the configuration lookup yields `undefined` (hole number below 1), in
which case the source would throw on the property access. -/
def checkBounds (c : CourseState) (ballPos : Vec3) : Option Bool :=
  (getHoleConfig (getCurrentHole c)).map (fun config => checkBoundsCfg config ballPos)

end Course

/-! ## Obstacles (obstacles module, first `ObstacleManager` class)

Roster creation is hole-indexed; `Math.random()` draws and the
`Math.cos`/`Math.sin` evaluations used for ring-positioned anchors are
supplied by the oracle `Env` so the definitions stay executable and
exact. -/

/-- Oracle for the source's nondeterministic and irrational numeric
inputs: `rand n` is the value of the n-th `Math.random()`-derived draw
consumed while building a roster, and `cosv`/`sinv` model `Math.cos` /
`Math.sin`. -/
structure Env where
  rand : ℕ → ℚ
  cosv : ℚ → ℚ
  sinv : ℚ → ℚ

/-- Movement policies of an obstacle (`movementType` strings). -/
inductive MovementType where
  | oscillate
  | circular
  | static
deriving DecidableEq, Repr

/-- Space-object kinds of an obstacle (`spaceObjects` strings). -/
inductive ObjType where
  | planet
  | star
  | ufo
deriving DecidableEq, Repr

/-- Obstacle record: the collision/animation-relevant fields of the
source's obstacle objects (mesh/material construction omitted). -/
structure Obstacle where
  radius : ℚ
  initialPosition : Vec3
  movementType : MovementType
  movementSpeed : ℚ
  movementRange : ℚ
  phase : ℚ
  velocity : Option Vec3
  objectType : ObjType
deriving DecidableEq, Repr

namespace ObstacleManager

/-- Embeds `ObstacleManager.positionObstacleForHole`: hole-indexed
anchor `(x, z)` for obstacle `index`.  Holes 1, 2, 3, 5, 6, 7 and 9 use
fixed five-entry tables (indexed modulo 5); holes 4 and 8 and the
default branch place anchors on a circle via `Math.cos`/`Math.sin` of a
hole- and index-derived angle, taken from the oracle. -/
def positionObstacleForHole (env : Env) (holeNumber : ℤ) (index : ℕ) : ℚ × ℚ :=
  let table (ps : List (ℚ × ℚ)) : ℚ × ℚ := ps.getD (index % 5) (0, 0)
  if holeNumber = 1 then
    table [(-4, 10), (3, 0), (-2, -8), (5, 5), (0, -15)]
  else if holeNumber = 2 then
    table [(-10, 5), (8, -8), (-5, -5), (15, 2), (-15, 8)]
  else if holeNumber = 3 then
    table [(-6, 15), (6, 8), (-3, -5), (4, -18), (0, 0)]
  else if holeNumber = 4 then
    let angle := (index : ℚ) * (24 / 10) + (holeNumber : ℚ) * (5 / 10)
    (env.cosv angle * 21, env.sinv angle * 21)
  else if holeNumber = 5 then
    table [(-8, 20), (7, 10), (-6, -2), (9, -15), (-4, -25)]
  else if holeNumber = 6 then
    table [(-20, 15), (18, 20), (-12, -5), (22, -12), (5, 8)]
  else if holeNumber = 7 then
    table [(-8, 25), (10, 15), (-6, -10), (8, -20), (0, 5)]
  else if holeNumber = 8 then
    let angle := (index : ℚ) * (14 / 10) + (holeNumber : ℚ) * (3 / 10)
    let radius8 := 15 + (index : ℚ) * 4
    (env.cosv angle * radius8, env.sinv angle * radius8)
  else if holeNumber = 9 then
    table [(-25, 20), (28, 25), (-20, -18), (22, -22), (0, 0)]
  else
    let angle := (index : ℚ) * (22 / 10) + (holeNumber : ℚ) * (4 / 10)
    let distance := 8 + (index : ℚ) * 3
    (env.cosv angle * distance, env.sinv angle * distance)

/-- Embeds `types[index % types.length]` with
`types = ['oscillate', 'circular', 'static']`. -/
def movementTypeFor (index : ℕ) : MovementType :=
  match index % 3 with
  | 0 => .oscillate
  | 1 => .circular
  | _ => .static

/-- Embeds `spaceObjects[index % spaceObjects.length]` with
`spaceObjects = ['planet', 'star', 'ufo']`. -/
def objectTypeFor (index : ℕ) : ObjType :=
  match index % 3 with
  | 0 => .planet
  | 1 => .star
  | _ => .ufo

/-- Embeds `ObstacleManager.createObstacle(holeNumber, index)`:
random-derived radius (UFOs overridden to 8), movement type and object
kind cycling with the index, hole-3 central-UFO special placement, and
otherwise the hole-indexed anchor with height `radius + 0.5` (raised to
`radius + 1` for UFOs).  Oracle draws `4·index .. 4·index+3` stand for
the four `Math.random()`-derived values of the obstacle literal, with
`phase` the already-scaled draw `Math.random()·2π`; the cosmetic random
ring tilt of planets is rendering-only and omitted. -/
def createObstacle (env : Env) (holeNumber : ℤ) (index : ℕ) : Obstacle :=
  let radius0 := 3 / 2 + env.rand (4 * index)
  let movementSpeed := 1 + env.rand (4 * index + 1) * 2
  let movementRange := 5 + env.rand (4 * index + 2) * 10
  let phase := env.rand (4 * index + 3)
  let movementType0 := movementTypeFor index
  let objectType := objectTypeFor index
  let radius := if objectType = ObjType.ufo then (8 : ℚ) else radius0
  if holeNumber = 3 ∧ index = 2 ∧ objectType = ObjType.ufo then
    { radius := radius
      initialPosition := ⟨0, radius + 1, 5⟩
      movementType := .static
      movementSpeed := movementSpeed
      movementRange := movementRange
      phase := phase
      velocity := some Vec3.zero
      objectType := objectType }
  else
    let anchor := positionObstacleForHole env holeNumber index
    let yPos := if objectType = ObjType.ufo then radius + 1 else radius + 1 / 2
    { radius := radius
      initialPosition := ⟨anchor.1, yPos, anchor.2⟩
      movementType := movementType0
      movementSpeed := movementSpeed
      movementRange := movementRange
      phase := phase
      velocity := some Vec3.zero
      objectType := objectType }

/-- Embeds `ObstacleManager.createObstacles(holeNumber)`: clear the
roster and create `Math.min(holeNumber, 5)` obstacles (none when the
hole number is not positive, since the loop bound is then ≤ 0). -/
def createObstacles (env : Env) (holeNumber : ℤ) : List Obstacle :=
  (List.range (min holeNumber 5).toNat).map (fun i => createObstacle env holeNumber i)

/-- Embeds the derived-velocity step of `ObstacleManager.update`
("Calculate velocity for collision physics"): the division by the frame
delta is guarded by `if (delta > 0)`, so a zero delta leaves the
previous (finite) velocity untouched. -/
def updateVelocityStep (oldVelocity : Option Vec3) (currentPos prevPos : Vec3)
    (delta : ℚ) : Option Vec3 :=
  if 0 < delta then vecDivOpt (Vec3.sub currentPos prevPos) delta else oldVelocity

end ObstacleManager

/-! ## Drones (drones module) -/

/-- Drone record: patrol state and collision-relevant fields of the
source's drone objects.  As in the source, `velocity` starts as a finite
zero vector and is re-derived every update from the position delta;
`none` records that the derived value is not a finite number. -/
structure Drone where
  position : Vec3
  radius : ℚ
  patrolPath : List Vec3
  currentPathIndex : ℕ
  speed : ℚ
  velocity : Option Vec3
deriving DecidableEq, Repr

namespace DroneManager

/-- Embeds the patrol-path construction of
`DroneManager.createDrone(holeNumber, index)`: four waypoints on a
circle of radius `8 + 3·index` around the offset anchor
`((index-1)·10, 3+index, -10-5·index)`.  The four angles are 0, π/2, π
and 3π/2, whose cosines and sines are exactly 0 and ±1, so the path is
exact in ℚ. -/
def patrolPathFor (index : ℕ) : List Vec3 :=
  let pathRadius : ℚ := 8 + (index : ℚ) * 3
  let ox : ℚ := ((index : ℚ) - 1) * 10
  let oy : ℚ := 3 + (index : ℚ)
  let oz : ℚ := -10 - (index : ℚ) * 5
  [ ⟨ox + pathRadius, oy, oz⟩,
    ⟨ox, oy, oz + pathRadius⟩,
    ⟨ox - pathRadius, oy, oz⟩,
    ⟨ox, oy, oz - pathRadius⟩ ]

/-- Embeds `DroneManager.createDrone(holeNumber, index)`: radius 1.2,
random-derived speed `3 + Math.random()·2` (oracle draw `index`), the
four-point patrol path, starting at its first waypoint with a finite
zero velocity.  Mesh construction is rendering-only and omitted. -/
def createDrone (env : Env) (_holeNumber : ℤ) (index : ℕ) : Drone :=
  let path := patrolPathFor index
  { position := path.getD 0 Vec3.zero
    radius := 6 / 5
    patrolPath := path
    currentPathIndex := 0
    speed := 3 + env.rand index * 2
    velocity := some Vec3.zero }

/-- Embeds `DroneManager.createDrones(holeNumber)`: no drones below
hole 5, otherwise `Math.min(holeNumber - 4, 4)` drones. -/
def createDrones (env : Env) (holeNumber : ℤ) : List Drone :=
  if holeNumber < 5 then []
  else (List.range (min (holeNumber - 4) 4).toNat).map (fun i => createDrone env holeNumber i)

/-- Embeds `DroneManager.updateDrone(drone, delta)`.  `dirUnit` stands
for the source's `normalize(targetPoint - position)` unit vector, whose
components are irrational in general and which is scaled by
`speed · delta` (so it is irrelevant at a zero delta); the `distance < 1`
test is embedded as the equivalent squared comparison.  After the move
or waypoint advance, the derived velocity `(position - prevPos) / delta`
is computed WITHOUT a zero-delta guard — unlike the obstacle manager's
`updateVelocityStep` — so a zero frame delta makes it non-finite
(`none`); the cosmetic `lookAt` heading update is omitted. -/
def updateDrone (drone : Drone) (dirUnit : Vec3) (delta : ℚ) : Drone :=
  let prevPos := drone.position
  match drone.patrolPath.get? drone.currentPathIndex with
  | none => drone
  | some targetPoint =>
    let distSq := Vec3.distSq drone.position targetPoint
    let moved :=
      if distSq < 1 then
        { drone with currentPathIndex := (drone.currentPathIndex + 1) % drone.patrolPath.length }
      else
        { drone with position := Vec3.add drone.position (Vec3.smul dirUnit (drone.speed * delta)) }
    { moved with velocity := vecDivOpt (Vec3.sub moved.position prevPos) delta }

end DroneManager

/-! ## Game state machine (game module, the `Game` class the claims
cite) and the shot-intake path of the input module. -/

/-- One scorecard record: `this.scorecard[completedHole] =
{ strokes, par, score }`. -/
structure ScoreEntry where
  strokes : ℕ
  par : ℤ
  score : String
deriving DecidableEq, Repr

/-- A JS runtime error escaping a method (here: the TypeError raised by
a property access on `undefined`). -/
inductive JsError where
  | typeError
deriving DecidableEq, Repr

/-- Game state: the progression and simulation fields of the `Game`
class (`currentHole`, `strokeCount`, `completedHoles`, `scorecard`, the
ball, the course, and the obstacle roster).  Renderer, camera, clock and
DOM fields are rendering-only and omitted.  NOTE: this `Game` class has
no drone roster — nothing in it (constructor, `setupComponents`,
`rebuildScene`) ever assigns `this.droneManager`, and its module does
not import `DroneManager`, so that field is permanently `undefined`. -/
structure Game where
  currentHole : ℤ
  strokeCount : ℕ
  completedHoles : List ℤ
  scorecard : List (ℤ × ScoreEntry)
  ball : Ball
  course : CourseState
  obstacles : List Obstacle
deriving DecidableEq

namespace Game

/-- Embeds `Game.onStroke()`: `this.strokeCount++`. -/
def onStroke (g : Game) : Game := { g with strokeCount := g.strokeCount + 1 }

/-- Embeds `Game.getGolfScoreTerminology(strokes, par)`: the
`strokes === 1` hole-in-one special case overrides everything; the
remaining branches key on the source's local
`difference = strokes - par`, inlined here.  The trailing `return "Par"`
of the source is unreachable for integer inputs but kept for
fidelity. -/
def getGolfScoreTerminology (strokes par : ℤ) : String :=
  if strokes = 1 then "🏆 HOLE-IN-ONE! (Ace) 🏆"
  else if strokes - par ≤ -3 then "🦅 DOUBLE EAGLE! 🦅"
  else if strokes - par = -2 then "🦅 EAGLE! 🦅"
  else if strokes - par = -1 then "🐦 Birdie! 🐦"
  else if strokes - par = 0 then "📍 Par"
  else if strokes - par = 1 then "😐 Bogey"
  else if strokes - par = 2 then "😬 Double Bogey"
  else if strokes - par = 3 then "😰 Triple Bogey"
  else if strokes - par ≥ 4 then "😱 " ++ toString (strokes - par) ++ " Over Par"
  else "Par"

/-- Score label as the specification's table words it, for comparison
with `getGolfScoreTerminology`: `strokes = 1` overrides everything;
otherwise the label is keyed on `d = strokes - par` with `d ≤ -3` double
eagle, `-2` eagle, `-1` birdie, `0` par, `1` bogey, `2` double bogey,
`3` triple bogey and `d ≥ 4` the "d Over Par" string (labels carry the
source's emoji decorations). -/
def scoreLabelSpec (strokes par : ℤ) : String :=
  if strokes = 1 then "🏆 HOLE-IN-ONE! (Ace) 🏆"
  else if 4 ≤ strokes - par then "😱 " ++ toString (strokes - par) ++ " Over Par"
  else if strokes - par = 3 then "😰 Triple Bogey"
  else if strokes - par = 2 then "😬 Double Bogey"
  else if strokes - par = 1 then "😐 Bogey"
  else if strokes - par = 0 then "📍 Par"
  else if strokes - par = -1 then "🐦 Birdie! 🐦"
  else if strokes - par = -2 then "🦅 EAGLE! 🦅"
  else "🦅 DOUBLE EAGLE! 🦅"

/-- Embeds `Game.getHoleConfigForScorecard(holeNumber)`: an independent
nine-entry par table `[2,3,4,4,5,5,6,6,7]` indexed by
`holeNumber - 1` with no clamping; its own comment says it "should
match the hole configurations in course.js".  Only the `par` field
exists in its records, so the lookup is modelled as the par value. -/
def getHoleConfigForScorecard (holeNumber : ℤ) : Option ℤ :=
  let pars : List ℤ := [2, 3, 4, 4, 5, 5, 6, 6, 7]
  if holeNumber - 1 < 0 then none else pars.get? (holeNumber - 1).toNat

/-- Embeds `Game.restartLevel()`: the ball is repositioned to the course
start and the obstacle manager is replaced by a fresh one populated for
the current hole; the method touches neither `strokeCount` (the source
comments "We intentionally don't reset strokeCount to preserve it
across restarts") nor `currentHole`, `completedHoles` or `scorecard`.
The method then executes `this.droneManager.dispose()`, but this `Game`
class never initializes `droneManager` (and does not import
`DroneManager`), so that access throws a TypeError: the drone
recreation and the remaining statements (aim-arrow hiding, restart
message) never run, while the ball and obstacle mutations already
applied persist on the game object.  The result pairs that post-throw
state with the escaping error. -/
def restartLevel (env : Env) (g : Game) : Game × Option JsError :=
  ({ g with
      ball := Ball.setPosition g.ball g.course.startPosition
      obstacles := ObstacleManager.createObstacles env g.currentHole },
   some JsError.typeError)

/-- Embeds `Game.handleDonutCenterCollision()`: ball repositioned to the
course start and the obstacle roster regenerated for the current hole;
stroke and progression state untouched (the themed message is
rendering-only and omitted). -/
def handleDonutCenterCollision (env : Env) (g : Game) : Game :=
  { g with
      ball := Ball.setPosition g.ball g.course.startPosition
      obstacles := ObstacleManager.createObstacles env g.currentHole }

/-- Embeds the donut-center test opening `Game.checkCollisions()`:
`if (this.currentHole === 6)` and
`Math.sqrt(x² + z²) < 12` — both the hole number 6 and the inner radius
12 are hardcoded; the course's actual ground shape is not consulted. -/
def donutCenterCheck (g : Game) : Bool :=
  decide (g.currentHole = 6) &&
    sqrtLtQ (g.ball.position.x * g.ball.position.x + g.ball.position.z * g.ball.position.z) 12

/-- Donut fall-through condition as the specification words it: the
current course's ground shape is a ring and the ball's radial distance
from the center is below the ring's inner radius, for WHATEVER hole
number that ring belongs to.  Stated for comparison with the code's
`donutCenterCheck`. -/
def specDonutFallThrough (g : Game) : Bool :=
  match Course.getHoleConfig (Course.getCurrentHole g.course) with
  | some config =>
      decide (config.groundShape = GroundShape.donut) &&
        sqrtLtQ (g.ball.position.x * g.ball.position.x + g.ball.position.z * g.ball.position.z)
          config.groundSize.innerRadius
  | none => false

/-- Embeds the donut-center stage of `Game.checkCollisions()`: when the
check fires, `handleDonutCenterCollision` runs and the method returns
early; otherwise the remaining collision stages follow. -/
def checkCollisionsDonutStage (env : Env) (g : Game) : Game :=
  if donutCenterCheck g then handleDonutCenterCollision env g else g

/-- Embeds the closing bounds stage of `Game.checkCollisions()`:
`if (this.course.checkBounds(this.ball)) this.restartLevel()` — the
TypeError escaping `restartLevel` propagates out of `checkCollisions`
uncaught. -/
def checkCollisionsBoundsStage (env : Env) (g : Game) : Game × Option JsError :=
  if Course.checkBounds g.course g.ball.position = some true then restartLevel env g
  else (g, none)

end Game

/-! ## Shot intake (input module) -/

/-- Input-handler state relevant to the shot path: the power-charge
fields (aim/camera and key state are out of scope). -/
structure InputHandler where
  isCharging : Bool
  power : ℚ
deriving DecidableEq, Repr

/-- The two observable effects of one discrete shoot event, listed in
execution order by the shot path. -/
inductive ShootEvent where
  | ballShot
  | strokeIncremented
deriving DecidableEq, Repr

/-- The state `InputHandler.shoot()` reads and writes: the handler's own
charge state, the ball, and the optional game back-reference
(`this.game`, `null` when the handler was constructed without one). -/
structure InputShootCtx where
  input : InputHandler
  ball : Ball
  game : Option Game

/-- Embeds `InputHandler.shoot()` together with the order of its
observable effects: bail out (total no-op) when `!this.ball.canShoot()`;
otherwise `this.ball.shoot(direction, this.power)` FIRST, then reset the
charge state, and only THEN — when a game with `onStroke` is attached —
`this.game.onStroke()`.  The returned event list records that execution
order.  `direction` is the camera's aim direction, an input here. -/
def InputHandler.shoot (ctx : InputShootCtx) (direction : Vec3) :
    InputShootCtx × List ShootEvent :=
  if Ball.canShoot ctx.ball then
    let ball2 := Ball.shoot ctx.ball direction ctx.input.power
    let game2 := ctx.game.map Game.onStroke
    ({ input := { isCharging := false, power := 0 }, ball := ball2, game := game2 },
     ShootEvent.ballShot ::
       (match ctx.game with
        | some _ => [ShootEvent.strokeIncremented]
        | none => []))
  else (ctx, [])

/-! ## Concrete sample states for witnesses and counterexamples -/

/-- Degenerate oracle for concrete evaluations: all draws are 0. -/
def envZero : Env := { rand := fun _ => 0, cosv := fun _ => 0, sinv := fun _ => 0 }

/-- Course state exactly as `createHole(1)` leaves it (hole 1 config). -/
def sampleCourse1 : CourseState :=
  { startPosition := ⟨0, 0, 20⟩, holePosition := ⟨0, 0, -20⟩, par := 2, currentHoleNumber := 1 }

/-- Course state exactly as `createHole(4)` leaves it (hole 4 donut config). -/
def sampleCourse4 : CourseState :=
  { startPosition := ⟨0, 0, 25⟩, holePosition := ⟨0, 0, -25⟩, par := 3, currentHoleNumber := 4 }

/-- Course state exactly as `createHole(6)` leaves it (hole 6 donut config). -/
def sampleCourse6 : CourseState :=
  { startPosition := ⟨0, 0, 25⟩, holePosition := ⟨0, 0, -25⟩, par := 4, currentHoleNumber := 6 }

/-- A resting ball at the hole-1 start position. -/
def sampleBallResting : Ball :=
  { position := ⟨0, 1 / 2, 20⟩, velocity := Vec3.zero, isMoving := false }

/-- A moving ball (mid-flight). -/
def sampleBallMoving : Ball :=
  { position := ⟨0, 1 / 2, 0⟩, velocity := ⟨1, 0, 0⟩, isMoving := true }

/-- A ball that has fallen far below the ground plane. -/
def sampleBallFallen : Ball :=
  { position := ⟨0, -10, 0⟩, velocity := ⟨0, -5, 0⟩, isMoving := true }

/-- Course state exactly as `createHole(5)` leaves it (hole 5 narrow
config). -/
def sampleCourse5 : CourseState :=
  { startPosition := ⟨0, 0, 30⟩, holePosition := ⟨0, 0, -30⟩, par := 4, currentHoleNumber := 5 }

/-- Fresh game at hole 1 with a resting ball. -/
def sampleGameIdle : Game :=
  { currentHole := 1, strokeCount := 0, completedHoles := [], scorecard := [],
    ball := sampleBallResting, course := sampleCourse1, obstacles := [] }

/-- Game on hole 4 (a donut course) with the ball 5 units from the
course center — inside the ring's inner radius 12. -/
def sampleGame4 : Game :=
  { sampleGameIdle with
      currentHole := 4, course := sampleCourse4,
      ball := { position := ⟨5, 1 / 2, 0⟩, velocity := Vec3.zero, isMoving := true } }

/-- Game on hole 6 (the other donut course) with the ball 5 units from
the course center. -/
def sampleGame6 : Game :=
  { sampleGameIdle with
      currentHole := 6, course := sampleCourse6,
      ball := { position := ⟨5, 1 / 2, 0⟩, velocity := Vec3.zero, isMoving := true } }

/-- Game at hole 1 whose ball has fallen out of bounds. -/
def sampleGameOOB : Game :=
  { sampleGameIdle with ball := sampleBallFallen }

/-- Game at hole 5 (a drone hole) whose ball has fallen out of
bounds. -/
def sampleGame5OOB : Game :=
  { sampleGameIdle with currentHole := 5, course := sampleCourse5, ball := sampleBallFallen }

/-- Input-shoot context: charging handler, shootable ball, game
attached (as the game's constructor wires it). -/
def sampleCtx : InputShootCtx :=
  { input := { isCharging := true, power := 1 / 2 },
    ball := sampleBallResting,
    game := some sampleGameIdle }

/-! ## Claims -/

/-- C1 counterexample: at a charged, shootable state with the game
attached, one discrete shoot event produces the effect order
[ball shot, stroke incremented] — the `strokeCount` increment does NOT
happen before `Ball.shoot()` as claimed; `onStroke` runs after it. -/
theorem C1_counterexample :
    (InputHandler.shoot sampleCtx ⟨0, 0, -1⟩).2
      = [ShootEvent.ballShot, ShootEvent.strokeIncremented] ∧
    ¬ ((InputHandler.shoot sampleCtx ⟨0, 0, -1⟩).2.indexOf ShootEvent.strokeIncremented
        < (InputHandler.shoot sampleCtx ⟨0, 0, -1⟩).2.indexOf ShootEvent.ballShot) := by
  decide

/-- C1 (amended): every discrete shoot event taken while the ball can be
shot and a game is attached increments `strokeCount` by exactly 1, but
the increment happens AFTER `Ball.shoot()` is invoked, not before. -/
theorem C1_stroke_incremented_once_after_shot (ctx : InputShootCtx) (direction : Vec3)
    (g : Game) (hball : Ball.canShoot ctx.ball = true) (hg : ctx.game = some g) :
    (InputHandler.shoot ctx direction).1.game.map Game.strokeCount
      = some (g.strokeCount + 1) ∧
    (InputHandler.shoot ctx direction).2
      = [ShootEvent.ballShot, ShootEvent.strokeIncremented] := by
  unfold InputHandler.shoot
  rw [hball, hg]
  simp [Game.onStroke]

/-- C1 witness: the amended theorem applied to the concrete charged
state; the stroke count goes from 0 to exactly 1. -/
theorem C1_witness :
    (InputHandler.shoot sampleCtx ⟨0, 0, -1⟩).1.game.map Game.strokeCount = some 1 := by
  have h := C1_stroke_incremented_once_after_shot sampleCtx ⟨0, 0, -1⟩ sampleGameIdle
    (by decide) rfl
  simpa [sampleGameIdle] using h.1

/-- C2: the scorecard's own per-hole par table disagrees with the course
configuration it documents itself as matching ("This should match the
hole configurations in course.js"): at hole 3 the scorecard lookup says
par 4 while the course configuration says par 3. -/
theorem C2_scorecard_course_par_mismatch :
    Game.getHoleConfigForScorecard 3 = some 4 ∧
    (Course.getHoleConfig 3).map HoleConfig.par = some 3 ∧
    Game.getHoleConfigForScorecard 3 ≠ (Course.getHoleConfig 3).map HoleConfig.par := by
  decide

/-- C3 counterexample: `Ball.shoot` itself performs no guard — called on
a moving ball (`canShoot()` false) it is NOT a no-op: the velocity and
`isMoving` state change. -/
theorem C3_counterexample :
    Ball.canShoot sampleBallMoving = false ∧
    Ball.shoot sampleBallMoving ⟨0, 0, -1⟩ 1 ≠ sampleBallMoving := by
  refine ⟨rfl, fun heq => ?_⟩
  have h := congrArg (fun b => b.velocity.y) heq
  norm_num [Ball.shoot, sampleBallMoving] at h

/-- C3 (amended): the silent no-op rejection of a shoot request while
`!canShoot()` lives in `InputHandler.shoot`, which returns before
invoking `Ball.shoot`: the whole context (ball position, velocity,
`isMoving`, charge state, game) is unchanged and no event is produced;
`Ball.shoot` itself applies the impulse unconditionally. -/
theorem C3_shoot_rejected_while_moving (ctx : InputShootCtx) (direction : Vec3)
    (h : Ball.canShoot ctx.ball = false) :
    InputHandler.shoot ctx direction = (ctx, []) := by
  unfold InputHandler.shoot
  rw [h]
  simp

/-- C3 witness: the amended theorem applied to a context holding the
concrete moving ball. -/
theorem C3_witness :
    InputHandler.shoot
        { input := { isCharging := true, power := 1 }, ball := sampleBallMoving, game := none }
        ⟨0, 0, -1⟩
      = ({ input := { isCharging := true, power := 1 }, ball := sampleBallMoving, game := none },
         []) :=
  C3_shoot_rejected_while_moving _ _ (by decide)

/-- C4 counterexample: on hole 4 — whose course shape IS a ring with
inner radius 12 — a ball 5 units from the center satisfies the
specification's fall-through condition, yet the game's donut-center
check does not fire (it is hardcoded to `currentHole === 6`) and the
donut stage of `checkCollisions` leaves the state untouched. -/
theorem C4_counterexample :
    Game.specDonutFallThrough sampleGame4 = true ∧
    Game.donutCenterCheck sampleGame4 = false ∧
    Game.checkCollisionsDonutStage envZero sampleGame4 = sampleGame4 := by
  have hcode : Game.donutCenterCheck sampleGame4 = false := by
    norm_num [Game.donutCenterCheck, sampleGame4, sampleGameIdle]
  refine ⟨?_, hcode, ?_⟩
  · unfold Game.specDonutFallThrough
    have hch : Course.getCurrentHole sampleGame4.course = 4 := rfl
    have hcfg : Course.getHoleConfig 4
        = some { par := 3, start := ⟨0, 0, 25⟩, hole := ⟨0, 0, -25⟩,
                 groundSize := { width := 0, depth := 0, radius := 0,
                                 outerRadius := 30, innerRadius := 12 },
                 groundShape := .donut } := rfl
    rw [hch, hcfg]
    norm_num [sqrtLtQ, sampleGame4, sampleGameIdle]
  · simp [Game.checkCollisionsDonutStage, hcode]

/-- C4 (amended): the donut-center fall-through response fires only when
`currentHole = 6` (with the inner radius 12 hardcoded), not for every
ring-shaped course; when it fires, the ball is reset to the course
start, the obstacle roster is regenerated for the current hole, and the
stroke count and progression state are untouched. -/
theorem C4_donut_fallthrough_hole6_only (env : Env) (g : Game)
    (h : Game.donutCenterCheck g = true) :
    g.currentHole = 6 ∧
    Game.checkCollisionsDonutStage env g = Game.handleDonutCenterCollision env g ∧
    (Game.handleDonutCenterCollision env g).strokeCount = g.strokeCount ∧
    (Game.handleDonutCenterCollision env g).currentHole = g.currentHole ∧
    (Game.handleDonutCenterCollision env g).completedHoles = g.completedHoles ∧
    (Game.handleDonutCenterCollision env g).scorecard = g.scorecard ∧
    (Game.handleDonutCenterCollision env g).ball
      = Ball.setPosition g.ball g.course.startPosition ∧
    (Game.handleDonutCenterCollision env g).obstacles
      = ObstacleManager.createObstacles env g.currentHole := by
  refine ⟨?_, ?_, rfl, rfl, rfl, rfl, rfl, rfl⟩
  · have h6 := (Bool.and_eq_true _ _).mp ((Game.donutCenterCheck.eq_1 g) ▸ h)
    exact of_decide_eq_true h6.1
  · simp [Game.checkCollisionsDonutStage, h]

/-- C4 witness: the amended theorem applied to the hole-6 state with the
ball 5 units from the center. -/
theorem C4_witness :
    Game.donutCenterCheck sampleGame6 = true ∧
    (Game.handleDonutCenterCollision envZero sampleGame6).strokeCount
      = sampleGame6.strokeCount := by
  have hc : Game.donutCenterCheck sampleGame6 = true := by
    norm_num [Game.donutCenterCheck, sampleGame6, sampleGameIdle, sqrtLtQ]
  exact ⟨hc, (C4_donut_fallthrough_hole6_only envZero sampleGame6 hc).2.2.1⟩

/-- C5: for every ground shape (every hole configuration) and every ball
position with `y < -5`, the course bounds predicate reports out of
bounds, regardless of the horizontal position. -/
theorem C5_below_ground_plane_always_out (config : HoleConfig) (pos : Vec3)
    (h : pos.y < -5) : Course.checkBoundsCfg config pos = true := by
  have h3 : pos.y < -3 := by linarith
  unfold Course.checkBoundsCfg
  split <;>
    simp only [Course.checkRectangularBounds, Course.checkCircularBounds,
      Course.checkLShapeBounds, Course.checkScatteredBounds, Course.checkDonutBounds,
      Bool.or_eq_true, decide_eq_true_eq] <;>
    first
      | exact Or.inr h
      | exact Or.inr (Or.inr h3)
      | exact Or.inr h3

/-- C5 witness: the theorem applied to the hole-4 donut configuration
and a far-out fallen position. -/
theorem C5_witness :
    (Vec3.mk 100 (-6) 100).y < -5 ∧
    Course.checkBoundsCfg
        { par := 3, start := ⟨0, 0, 25⟩, hole := ⟨0, 0, -25⟩,
          groundSize := { width := 0, depth := 0, radius := 0, outerRadius := 30, innerRadius := 12 },
          groundShape := .donut }
        ⟨100, -6, 100⟩ = true :=
  ⟨by norm_num, C5_below_ground_plane_always_out _ _ (by norm_num)⟩

/-- C6 counterexample: hole number 0 lies outside 1–9, yet the lookup
yields `undefined` (the index `min(0-1, 8) = -1` is negative), not
hole 9's configuration, which exists. -/
theorem C6_counterexample :
    Course.getHoleConfig 0 = none ∧ Course.getHoleConfig 9 ≠ none := by
  refine ⟨rfl, ?_⟩
  simp [Course.getHoleConfig, Course.holeConfigs]

/-- C6 (amended): the `Math.min(holeNumber - 1, 8)` index clamps only
from above — every hole number above 9 yields hole 9's configuration,
while every hole number below 1 produces a negative index and the lookup
yields `undefined` rather than the last valid configuration. -/
theorem C6_hole_lookup_clamps_only_above (n : ℤ) :
    (9 < n → Course.getHoleConfig n = Course.getHoleConfig 9) ∧
    (n < 1 → Course.getHoleConfig n = none) := by
  constructor
  · intro h
    have h1 : min (n - 1) 8 = 8 := min_eq_right (by omega)
    simp only [Course.getHoleConfig, h1]
    rfl
  · intro h
    have h1 : min (n - 1) 8 = n - 1 := min_eq_left (by omega)
    have h2 : n - 1 < 0 := by omega
    simp only [Course.getHoleConfig, h1, if_pos h2]

/-- C6 witness: hole 15 clamps to hole 9's configuration; hole 0 fails
the lookup. -/
theorem C6_witness :
    Course.getHoleConfig 15 = Course.getHoleConfig 9 ∧ Course.getHoleConfig 0 = none :=
  ⟨(C6_hole_lookup_clamps_only_above 15).1 (by norm_num),
   (C6_hole_lookup_clamps_only_above 0).2 (by norm_num)⟩

/-- C7 counterexample: at a concrete hole-5 state whose ball has fallen
out of bounds, the out-of-bounds test fires, yet `restartLevel` does not
complete with regenerated rosters as claimed — this `Game` class never
initializes `this.droneManager`, so after the ball reset and obstacle
regeneration the method throws a TypeError at
`this.droneManager.dispose()` and no drone roster is ever
regenerated. -/
theorem C7_counterexample :
    Course.checkBounds sampleGame5OOB.course sampleGame5OOB.ball.position = some true ∧
    (Game.restartLevel envZero sampleGame5OOB).2 = some JsError.typeError := by
  refine ⟨?_, rfl⟩
  have hred : Course.checkBounds sampleGame5OOB.course sampleGame5OOB.ball.position
      = some (Course.checkBoundsCfg
          { par := 4, start := ⟨0, 0, 30⟩, hole := ⟨0, 0, -30⟩,
            groundSize := { width := 25, depth := 70, radius := 0,
                            outerRadius := 0, innerRadius := 0 },
            groundShape := .narrow } sampleBallFallen.position) := rfl
  rw [hred]
  norm_num [Course.checkBoundsCfg, Course.checkRectangularBounds,
    Course.wallThickness, Course.wallHeight, sampleBallFallen]

/-- C7 (amended): whenever the out-of-bounds test fires, the bounds
stage of `checkCollisions` runs `restartLevel`, which repositions the
ball to the course start and regenerates the obstacle roster while
leaving `strokeCount`, `currentHole`, `completedHoles` and the scorecard
untouched — but it then throws a TypeError at
`this.droneManager.dispose()` (the field is never initialized in this
`Game` class), so the restart aborts and no drone roster is
regenerated. -/
theorem C7_out_of_bounds_restart_preserves_strokes (env : Env) (g : Game)
    (h : Course.checkBounds g.course g.ball.position = some true) :
    Game.checkCollisionsBoundsStage env g = Game.restartLevel env g ∧
    (Game.restartLevel env g).1.strokeCount = g.strokeCount ∧
    (Game.restartLevel env g).1.currentHole = g.currentHole ∧
    (Game.restartLevel env g).1.completedHoles = g.completedHoles ∧
    (Game.restartLevel env g).1.scorecard = g.scorecard ∧
    (Game.restartLevel env g).1.ball = Ball.setPosition g.ball g.course.startPosition ∧
    (Game.restartLevel env g).1.obstacles = ObstacleManager.createObstacles env g.currentHole ∧
    (Game.restartLevel env g).2 = some JsError.typeError := by
  refine ⟨?_, rfl, rfl, rfl, rfl, rfl, rfl, rfl⟩
  simp [Game.checkCollisionsBoundsStage, h]

/-- C7 witness: the amended theorem applied to the hole-1 state whose
ball has fallen to `y = -10`; the stroke count survives the (aborting)
restart. -/
theorem C7_witness :
    (Game.restartLevel envZero sampleGameOOB).1.strokeCount = sampleGameOOB.strokeCount ∧
    Game.checkCollisionsBoundsStage envZero sampleGameOOB
      = Game.restartLevel envZero sampleGameOOB := by
  have hb : Course.checkBounds sampleGameOOB.course sampleGameOOB.ball.position = some true := by
    norm_num [Course.checkBounds, Course.getCurrentHole, Course.getHoleConfig,
      Course.holeConfigs, Course.checkBoundsCfg, Course.checkRectangularBounds,
      Course.wallThickness, Course.wallHeight, sampleGameOOB, sampleGameIdle,
      sampleCourse1, sampleBallFallen]
  have h := C7_out_of_bounds_restart_preserves_strokes envZero sampleGameOOB hb
  exact ⟨h.2.1, h.1⟩

set_option maxHeartbeats 2000000 in
/-- C8: for all strokes ≥ 1 and par ≥ 1 the score-label function agrees
with the specification's table — `strokes = 1` is "Hole-in-One"
overriding everything, otherwise the label is keyed on
`d = strokes - par` exactly as tabulated, with `d ≥ 4` rendered as the
"d Over Par" string. -/
theorem C8_score_label_table (strokes par : ℤ) (hs : 1 ≤ strokes) (hp : 1 ≤ par) :
    Game.getGolfScoreTerminology strokes par = Game.scoreLabelSpec strokes par := by
  unfold Game.getGolfScoreTerminology Game.scoreLabelSpec
  split_ifs <;> first | rfl | omega

/-- C8 witness: at strokes 7, par 3, the label is the claimed
"4 Over Par" string. -/
theorem C8_witness :
    (1 : ℤ) ≤ 7 ∧ (1 : ℤ) ≤ 3 ∧
    Game.getGolfScoreTerminology 7 3 = "😱 " ++ toString (4 : ℤ) ++ " Over Par" := by
  refine ⟨by norm_num, by norm_num, ?_⟩
  rw [C8_score_label_table 7 3 (by norm_num) (by norm_num)]
  norm_num [Game.scoreLabelSpec]

/-- C9: the ground clamp invariant — for every ball state with
`position.y ≥ radius` (as every valid reset leaves it) and every
nonnegative frame delta, `position.y ≥ radius` still holds after
`Ball.update` (which subsumes the claim's `radius - ε` bound for every
`ε ≥ 0`): whenever integration carries the ball below the ground the
clamp restores `y` to exactly `radius`. -/
theorem C9_ground_clamp (b : Ball) (dt : ℚ) (hdt : 0 ≤ dt)
    (hy : Ball.radius ≤ b.position.y) :
    Ball.radius ≤ (Ball.update b dt).position.y := by
  simp only [Ball.update]
  split_ifs
  all_goals first | exact hy | skip
  all_goals dsimp only
  all_goals first | exact le_refl _ | linarith

/-- C9 witness: the theorem applied to a concrete in-flight ball and a
60 fps frame delta. -/
theorem C9_witness :
    (0 : ℚ) ≤ 1 / 60 ∧
    Ball.radius ≤ (Ball.update
        { position := ⟨0, 1 / 2, 0⟩, velocity := ⟨20, 2, 0⟩, isMoving := true }
        (1 / 60)).position.y :=
  ⟨by norm_num,
   C9_ground_clamp _ _ (by norm_num) (by norm_num [Ball.radius])⟩

/-- C10: the drone update derives velocity as
`(position - prevPos) / delta` with NO zero-delta guard, so a frame
delta of 0 makes the derived velocity non-finite (`0/0` is NaN), while
the obstacle manager's matching computation is guarded by
`if (delta > 0)` and keeps its previous finite velocity. -/
theorem C10_drone_velocity_not_guarded_at_zero_dt :
    (DroneManager.updateDrone
        { position := ⟨0, 3, 0⟩, radius := 6 / 5, patrolPath := [⟨10, 3, 0⟩],
          currentPathIndex := 0, speed := 3, velocity := some Vec3.zero }
        ⟨1, 0, 0⟩ 0).velocity = none ∧
    ObstacleManager.updateVelocityStep (some Vec3.zero) ⟨0, 3, 0⟩ ⟨0, 3, 0⟩ 0
      = some Vec3.zero := by
  constructor
  · norm_num [DroneManager.updateDrone, Vec3.distSq, Vec3.lenSq, Vec3.sub, Vec3.add,
      Vec3.smul, vecDivOpt, List.get?]
  · norm_num [ObstacleManager.updateVelocityStep]

end SpaceGolf
